import Mathlib

/-!
Verification development for the multi-agent conversational pipeline
(guardrail filtering, action derivation/validation/execution, bounded
conversation history) of the `gemini_multi_agent_Ver` repository.

The Python sources are shallowly embedded: each Python function is
translated into an executable Lean definition over `String` / `List`,
with Python `None` modelled as `Option.none`, Python string truthiness
modelled explicitly, and a Python exception escaping a function modelled
as an `Option.none` result.  External completion-service calls are
modelled by an abstract outcome parameter (`ServiceOutcome`).
-/

/-! ### Python string primitives

Python string operations used by the sources, modelled over the
character list of a `String`.  `Char.toLower` agrees with Python
`str.lower` on the ASCII text appearing in the sources.
-/

/-- Contiguous-sublist test on character lists (the toolchain has no
`List.isInfixOf`): `needle` occurs contiguously inside `hay`. -/
def charsInfixOf (needle : List Char) : List Char → Bool
  | [] => needle.isEmpty
  | c :: rest => needle.isPrefixOf (c :: rest) || charsInfixOf needle rest

/-- Python `needle in hay` (substring containment). -/
def pyIn (needle hay : String) : Bool :=
  charsInfixOf needle.toList hay.toList

/-- Python `s.lower()`. -/
def pyLower (s : String) : String :=
  ⟨s.toList.map Char.toLower⟩

/-- Python whitespace characters recognised by `str.strip()` (ASCII). -/
def isPySpace (c : Char) : Bool :=
  c = ' ' || c = '\t' || c = '\n' || c = '\r' || c = '\x0b' || c = '\x0c'

/-- Python `s.strip()`: drop whitespace from both ends. -/
def pyStrip (s : String) : String :=
  ⟨((s.toList.dropWhile isPySpace).reverse.dropWhile isPySpace).reverse⟩

/-- Python `s[:n]` for a nonnegative `n`. -/
def pyTake (s : String) (n : Nat) : String :=
  ⟨s.toList.take n⟩

/-- The part of `hay` after the first occurrence of `needle`, or `none`
when `needle` does not occur: the `[1]` component of Python
`hay.split(needle, 1)` when the separator is present. -/
def afterFirstAux (needle : List Char) : List Char → Option (List Char)
  | [] => if needle.isEmpty then some [] else none
  | c :: rest =>
    if needle.isPrefixOf (c :: rest) then some ((c :: rest).drop needle.length)
    else afterFirstAux needle rest

/-- String wrapper for `afterFirstAux`. -/
def pyAfterFirst (hay needle : String) : Option String :=
  (afterFirstAux needle.toList hay.toList).map (fun l => ⟨l⟩)

/-- Python truthiness of a `str`-or-`None` value: `None` and the empty
string are falsy. -/
def pyTruthy : Option String → Bool
  | none => false
  | some s => !s.toList.isEmpty

/-- Python `a or b` on `str`-or-`None` values: the first operand when it
is truthy, otherwise the second. -/
def pyOr (a b : Option String) : Option String :=
  if pyTruthy a then a else b

/-- Python `l[-n:]` for a nonnegative `n`: for `n = 0` this is the whole
list (since `-0 == 0`), otherwise the last `min n l.length` elements. -/
def pySliceLastN {α : Type} (l : List α) (n : Nat) : List α :=
  if n = 0 then l else l.drop (l.length - n)

/-! ### ActionAgent (`agents/action_agent.py`)

An action dictionary is modelled as a structure holding the `action`
string and the three optional payload keys that the sources read
(`query`, `data`, `details`). -/

/-- The action dictionary produced by `ActionAgent.determine_action` and
consumed by `validate_action` / `execute_action`. -/
structure ActionRequest where
  action : String
  query : Option String := none
  data : Option String := none
  details : Option String := none
deriving DecidableEq

/-- `details = action_data.get("query") or action_data.get("data") or
action_data.get("details")` in `validate_action`. -/
def getDetails (a : ActionRequest) : Option String :=
  pyOr (pyOr a.query a.data) a.details

/-- The illegal/harmful-content keyword list of the `web_search` branch
of `validate_action`. -/
def webSearchBlocklist : List String :=
  ["illegal drugs", "violent acts", "child exploitation", "harmful chemicals"]

/-- The sensitive-data keyword list of the `save_data` branch of
`validate_action`. -/
def saveDataBlocklist : List String :=
  ["credit card numbers", "ssn", "passwords of others"]

/-- The illegal-activity keyword list of the `schedule_meeting` branch of
`validate_action`. -/
def scheduleMeetingBlocklist : List String :=
  ["bomb threat", "illegal gathering"]

/-- `ActionAgent.validate_action`.  Returns `some (valid, message)`;
returns `none` when the Python code raises: in the `web_search` branch
the check `"delete" in details.lower()` is evaluated unconditionally, so
a `None` `details` raises `AttributeError` there. -/
def validate_action (action_data : ActionRequest) : Option (Bool × String) :=
  let details := getDetails action_data
  if action_data.action = "web_search" then
    if pyTruthy details
        && webSearchBlocklist.any (fun k => pyIn k (pyLower (details.getD ""))) then
      some (false, "Cannot perform web search for harmful or illegal content.")
    else
      match details with
      | none => none
      | some d =>
        if pyIn "delete" (pyLower d) || pyIn "format" (pyLower d) then
          some (false, "Cannot perform web search for potentially destructive actions.")
        else
          some (true, "Action is valid.")
  else if action_data.action = "save_data" then
    if pyTruthy details
        && saveDataBlocklist.any (fun k => pyIn k (pyLower (details.getD ""))) then
      some (false, "Cannot save highly sensitive personal information.")
    else
      some (true, "Action is valid.")
  else if action_data.action = "schedule_meeting" then
    if pyTruthy details
        && scheduleMeetingBlocklist.any (fun k => pyIn k (pyLower (details.getD ""))) then
      some (false, "Cannot schedule meetings related to illegal activities.")
    else
      some (true, "Action is valid.")
  else if action_data.action = "none" then
    some (true, "Action is valid.")
  else
    some (false, "Unsupported or unauthorized action: \x27"
      ++ action_data.action ++ "\x27.")

/-- `ActionAgent.determine_action`: first-match pattern dispatch over the
lower-cased context summary. -/
def determine_action (context_summary : String) : ActionRequest :=
  let low := pyLower context_summary
  if pyIn "search the web for" low then
    { action := "web_search"
      query := some (pyStrip ((pyAfterFirst low "search the web for").getD "")) }
  else if pyIn "save this information" low then
    { action := "save_data", data := some context_summary }
  else if pyIn "schedule" low && pyIn "meeting" low then
    { action := "schedule_meeting", details := some context_summary }
  else
    { action := "none" }

/-! ### GuardrailAgent (`agents/guardrail_agent.py`)

The Stage-2 completion-service call (`generate_text` /
`generate_vision_response`) is external; its outcome in a given turn is
modelled by `ServiceOutcome`: a successful completion, a
`BlockedPromptException` safety rejection, or any other exception. -/

/-- Outcome of one call to the external completion service. -/
inductive ServiceOutcome where
  | ok (text : String)
  | blocked
  | failure
deriving DecidableEq

/-- Whether a service call completed successfully. -/
def ServiceOutcome.isOk : ServiceOutcome → Bool
  | .ok _ => true
  | _ => false

/-- Result of a guardrail scan: the safety verdict, the user-facing
message, and whether the completion service was invoked during the
scan. -/
structure ScanResult where
  safe : Bool
  message : String
  serviceCalled : Bool
deriving DecidableEq

/-- The Stage-1 rule-based block list of
`GuardrailAgent.scan_text_input`, verbatim from the source (note the
capital letter in the second entry). -/
def malicious_keywords : List String :=
  ["delete all files", "Hacking", "format hard drive", "steal credit card",
   "harm yourself", "do something illegal"]

/-- `GuardrailAgent.scan_text_input`: Stage-1 keyword check over the
lower-cased input, then a Stage-2 completion-service call whose outcome
is `svc`. -/
def scan_text_input (svc : ServiceOutcome) (text_input : String) : ScanResult :=
  if malicious_keywords.any (fun keyword => pyIn keyword (pyLower text_input)) then
    { safe := false
      message := "Your request contains content that violates our safety guidelines. Please rephrase your query."
      serviceCalled := false }
  else
    match svc with
    | .ok _ =>
      { safe := true, message := "Text input is safe.", serviceCalled := true }
    | .blocked =>
      { safe := false
        message := "Your request was blocked by safety filters. Please try a different query."
        serviceCalled := true }
    | .failure =>
      { safe := false
        message := "An internal error occurred during safety check. Please try again."
        serviceCalled := true }

/-- `GuardrailAgent.scan_image_input`: a single completion-service call
whose outcome is `svc` (there is no Stage-1 keyword check for images). -/
def scan_image_input (svc : ServiceOutcome) : ScanResult :=
  match svc with
  | .ok _ =>
    { safe := true, message := "Image input is safe.", serviceCalled := true }
  | .blocked =>
    { safe := false
      message := "The image you provided was blocked by safety filters. Please try a different image."
      serviceCalled := true }
  | .failure =>
    { safe := false
      message := "An internal error occurred during image safety check. Please try again."
      serviceCalled := true }

/-- Input text on which the Stage-1 keyword check of `scan_text_input`
finds no match. -/
def stage1Passes (text_input : String) : Bool :=
  malicious_keywords.all (fun keyword => !pyIn keyword (pyLower text_input))

/-! ### ContextManager (`core/context_manager.py`) -/

/-- One entry of the conversation history:
`{'role': ..., 'content': ...}`. -/
structure HistoryEntry where
  role : String
  content : String
deriving DecidableEq

/-- `ContextManager.add_message`: append the new entry, then trim with
the Python slice `history[-max_history_turns:]` whenever the length
exceeds `max_history_turns`. -/
def add_message (max_history_turns : Nat) (history : List HistoryEntry)
    (role content : String) : List HistoryEntry :=
  if (history ++ [({ role := role, content := content } : HistoryEntry)]).length
      > max_history_turns then
    pySliceLastN (history ++ [({ role := role, content := content } : HistoryEntry)])
      max_history_turns
  else
    history ++ [({ role := role, content := content } : HistoryEntry)]

/-- A sequence of `add_message` calls starting from `history`. -/
def appendAll (max_history_turns : Nat) (history : List HistoryEntry)
    (msgs : List (String × String)) : List HistoryEntry :=
  msgs.foldl (fun h m => add_message max_history_turns h m.1 m.2) history

/-- The state of the persisted history file as seen by
`ContextManager._load_history` at startup. -/
inductive FileState where
  | absent
  | unreadable
  | malformed
  | wellFormed (entries : List HistoryEntry)
deriving DecidableEq

/-- `ContextManager._load_history`: return the parsed list when the file
holds a well-formed list of role/content entries, and the empty list
when the file is absent, unreadable, or of the wrong shape.  No
trimming is performed. -/
def load_history : FileState → List HistoryEntry
  | .wellFormed entries => entries
  | _ => []

/-- The in-memory state of a `ContextManager`. -/
structure ContextManagerState where
  max_history_turns : Nat
  conversation_history : List HistoryEntry
deriving DecidableEq

/-- `ContextManager.__init__`: load the persisted history wholesale. -/
def initContextManager (file : FileState) (max_history_turns : Nat) :
    ContextManagerState :=
  { max_history_turns := max_history_turns
    conversation_history := load_history file }

/-- `ContextManager.get_full_history`. -/
def get_full_history (s : ContextManagerState) : List HistoryEntry :=
  s.conversation_history

/-! ### Turn orchestrator (`main.py`, route `chat`)

The turn is embedded as a function of the per-turn service outcomes.
Calls to the completion service made on behalf of content analysis,
action execution, and response generation are recorded as events (the
guardrail's own Stage-2 call is recorded in `ScanResult.serviceCalled`).
A turn that Python answers with an HTTP error (400 or 500) is modelled
by a `none` response. -/

/-- A user input to the `chat` route.  `image` stands for an uploaded
file with an allowed extension; `caption` is the accompanying
`text_input` form field (already stripped by the route). -/
inductive UserInput where
  | text (raw : String)
  | image (filename : String) (caption : String)
deriving DecidableEq

/-- The completion-service outcomes a single turn can observe: the
guardrail scan, the text/image analysis call, and the final
response-generation call. -/
structure ServiceEnv where
  guardrail : ServiceOutcome
  analysis : ServiceOutcome
  response : ServiceOutcome
deriving DecidableEq

/-- Events recorded during a turn. -/
inductive ChatEvent where
  | analysisCall
  | execute (action_data : ActionRequest)
  | responseCall
deriving DecidableEq

/-- The outcome of one `chat` turn: the JSON `response` field (`none`
when the route answers with an HTTP error), the updated history, and
the recorded events. -/
structure ChatOutcome where
  response : Option String
  history : List HistoryEntry
  events : List ChatEvent
deriving DecidableEq

/-- The `action_message` composed for an executed action:
`"[ACTION]: {action} performed."` plus a query/details suffix. -/
def actionPerformedMsg (action_data : ActionRequest) : String :=
  let base := "[ACTION]: " ++ action_data.action ++ " performed."
  match action_data.query with
  | some q => base ++ " (Query: \x27" ++ q ++ "\x27)"
  | none =>
    match action_data.details with
    | some d => base ++ " (Details: \x27" ++ pyTake d 50 ++ "...\x27)"
    | none => base

/-- The response-generation tail of the `chat` route: one completion
call producing the final reply, appended to History; a failing call
aborts the turn with an HTTP 500 (partial History writes are kept). -/
def chatRespond (env : ServiceEnv) (maxT : Nat) (hist : List HistoryEntry)
    (gemini_response action_message : String) (events : List ChatEvent) :
    ChatOutcome :=
  match env.response with
  | .ok final_response_text =>
    { response := some (gemini_response ++ "\n\n" ++ action_message
        ++ "\n\nGemini: " ++ final_response_text)
      history := add_message maxT hist "model" final_response_text
      events := events ++ [ChatEvent.responseCall] }
  | _ =>
    { response := none, history := hist
      events := events ++ [ChatEvent.responseCall] }

/-- The action-arbitration tail of the `chat` route, shared by the text
and image paths: `action_data = determine_action context_summary` is
validated, executed when valid and not of type `none`, and the final
response is generated.  A `none` from `validate_action` is the
`AttributeError` escaping into the route's `except` clause
(HTTP 500). -/
def chatAfterAnalysis (env : ServiceEnv) (maxT : Nat)
    (hist : List HistoryEntry) (context_summary gemini_response : String)
    (events : List ChatEvent) : ChatOutcome :=
  match validate_action (determine_action context_summary) with
  | none => { response := none, history := hist, events := events }
  | some (is_action_valid, validation_message) =>
    if is_action_valid = false then
      chatRespond env maxT hist gemini_response
        ("[ACTION BLOCKED]: " ++ validation_message) events
    else if (determine_action context_summary).action ≠ "none" then
      chatRespond env maxT hist gemini_response
        (actionPerformedMsg (determine_action context_summary))
        (events ++ [ChatEvent.execute (determine_action context_summary)])
    else
      chatRespond env maxT hist gemini_response
        "[ACTION]: No specific action determined." events

/-- The `chat` route of `main.py` for one turn: guardrail check, then
(on pass) modality-specific analysis, action arbitration, and response
generation; on block, two history entries and an immediate return; with
neither text nor image, an HTTP 400. -/
def chat (env : ServiceEnv) (maxT : Nat) (hist0 : List HistoryEntry)
    (input : UserInput) : ChatOutcome :=
  match input with
  | .image filename caption =>
    let scan := scan_image_input env.guardrail
    if scan.safe = false then
      let userContent :=
        if caption.toList.isEmpty then "[Image: " ++ filename ++ "]" else caption
      let h1 := add_message maxT hist0 "user" userContent
      let h2 := add_message maxT h1 "model" ("[Guardrail]: " ++ scan.message)
      { response := some ("System: " ++ scan.message), history := h2, events := [] }
    else
      match env.analysis with
      | .ok image_analysis =>
        let context_summary := "Image analysis: " ++ image_analysis
        let userCaption :=
          if caption.toList.isEmpty then "Image provided." else caption
        let h1 := add_message maxT hist0 "user"
          ("[Image: " ++ filename ++ "] " ++ userCaption)
        let h2 := add_message maxT h1 "model"
          ("[Image Analysis]: " ++ image_analysis)
        chatAfterAnalysis env maxT h2 context_summary
          ("[Image Analysis]: " ++ image_analysis) [ChatEvent.analysisCall]
      | _ =>
        { response := none, history := hist0, events := [ChatEvent.analysisCall] }
  | .text raw =>
    let user_input_text := pyStrip raw
    if user_input_text.toList.isEmpty then
      { response := none, history := hist0, events := [] }
    else
      let scan := scan_text_input env.guardrail user_input_text
      if scan.safe = false then
        let h1 := add_message maxT hist0 "user" user_input_text
        let h2 := add_message maxT h1 "model" ("[Guardrail]: " ++ scan.message)
        { response := some ("System: " ++ scan.message), history := h2, events := [] }
      else
        match env.analysis with
        | .ok text_analysis =>
          let context_summary := "Text analysis: " ++ text_analysis
          let h1 := add_message maxT hist0 "user" user_input_text
          let h2 := add_message maxT h1 "model"
            ("[Text Analysis]: " ++ text_analysis)
          chatAfterAnalysis env maxT h2 context_summary
            ("[Text Analysis]: " ++ text_analysis) [ChatEvent.analysisCall]
        | _ =>
          { response := none, history := hist0, events := [ChatEvent.analysisCall] }

/-- The `web_search` payload prescribed by the specification sentence
"payload = substring after the marker, trimmed", read over the summary
itself: the part of the (original, not lower-cased) summary after the
marker, trimmed. -/
def claimedWebSearchPayload (summary : String) : String :=
  pyStrip ((pyAfterFirst summary "search the web for").getD "")

/-! ### General lemmas -/

/-- `charsInfixOf` decides contiguous-sublist containment. -/
theorem charsInfixOf_iff (needle hay : List Char) :
    charsInfixOf needle hay = true ↔ needle <:+: hay := by
  induction hay with
  | nil => simp [charsInfixOf, List.isEmpty_iff, List.infix_nil]
  | cons c rest ih =>
    simp [charsInfixOf, List.infix_cons_iff, ih, List.isPrefixOf_iff_prefix]

/-- `pyIn` decides substring containment on the character lists. -/
theorem pyIn_iff (needle hay : String) :
    pyIn needle hay = true ↔ needle.toList <:+: hay.toList :=
  charsInfixOf_iff _ _

/-- The characters of a lower-cased string. -/
theorem pyLower_toList (s : String) :
    (pyLower s).toList = s.toList.map Char.toLower := rfl

/-! ### Claim theorems -/

/-- Claim C2 (code bug): the Stage-1 block list of `scan_text_input`
contains the phrase "Hacking", yet an input containing that very phrase
is not caught by Stage 1: the check compares the keyword against the
lower-cased input, in which a capitalised keyword can never occur.  The
scan proceeds to the completion-service call and, when that call
succeeds, the verdict is safe — contradicting the claim that any input
containing a block-listed phrase yields an unsafe verdict with no
service call. -/
theorem C2_hacking_blocklist_entry_dead :
    "Hacking" ∈ malicious_keywords
    ∧ pyIn "Hacking" "Hacking tutorial" = true
    ∧ scan_text_input (.ok "reply") "Hacking tutorial"
        = { safe := true, message := "Text input is safe.", serviceCalled := true } := by
  decide

/-- Claim C3: for an input that passes Stage 1, the guardrail verdict is
safe exactly when the delegated Stage-2 completion call succeeds: a
safety rejection and any other service failure both yield an unsafe
verdict (fail-closed), for text and image scans alike. -/
theorem C3_stage2_fail_closed :
    ∀ (svc : ServiceOutcome) (t : String),
      (stage1Passes t = true →
        ((scan_text_input svc t).safe = true ↔ svc.isOk = true))
      ∧ ((scan_text_input svc t).safe = true → svc.isOk = true)
      ∧ ((scan_image_input svc).safe = true ↔ svc.isOk = true) := by
  intro svc t
  refine ⟨fun hpass => ?_, fun hsafe => ?_, ?_⟩
  · have h : malicious_keywords.any (fun keyword => pyIn keyword (pyLower t)) = false := by
      simpa [stage1Passes] using hpass
    cases svc <;> simp [scan_text_input, h, ServiceOutcome.isOk]
  · cases hc : malicious_keywords.any (fun keyword => pyIn keyword (pyLower t)) with
    | true =>
        simp only [scan_text_input, hc] at hsafe
        simp at hsafe
    | false =>
        simp only [scan_text_input, hc] at hsafe
        cases svc with
        | ok r => simp [ServiceOutcome.isOk]
        | blocked => simp at hsafe
        | failure => simp at hsafe
  · cases svc <;> simp [scan_image_input, ServiceOutcome.isOk]

/-- Witness for C3 at a concrete Stage-1-passing input and a failing
service call. -/
theorem C3_stage2_fail_closed_witness :
    stage1Passes "hello" = true
    ∧ ((scan_text_input .failure "hello").safe = true
        ↔ ServiceOutcome.isOk .failure = true) :=
  ⟨by decide, (C3_stage2_fail_closed .failure "hello").1 (by decide)⟩

/-- Claim C4 (code bug): a `web_search` request with an empty payload —
exactly what `determine_action` produces for a summary ending at the
marker — makes `validate_action` raise instead of returning a verdict:
the destructive-query check calls `details.lower()` unconditionally,
and `details` is Python `None` because the empty query string is falsy
in the `or`-chain. -/
theorem C4_empty_payload_crashes :
    determine_action "Search the web for"
      = { action := "web_search", query := some "" }
    ∧ validate_action { action := "web_search", query := some "" } = none
    ∧ validate_action { action := "web_search" } = none := by
  decide

/-- Claim C5: `validate_action` accepts every request of type `none`
regardless of payload fields, and rejects every request whose type is
outside the four known ones, regardless of payload fields. -/
theorem C5_closed_world :
    ∀ a : ActionRequest,
      (a.action = "none" → validate_action a = some (true, "Action is valid."))
      ∧ (a.action ∉ (["none", "web_search", "save_data", "schedule_meeting"] : List String) →
          (validate_action a).map Prod.fst = some false) := by
  intro a
  constructor
  · intro h
    simp [validate_action, h]
  · intro h
    simp only [List.mem_cons, List.not_mem_nil, or_false, not_or] at h
    obtain ⟨h1, h2, h3, h4⟩ := h
    simp [validate_action, h1, h2, h3, h4]

/-- Witness for C5: the `none` type is accepted with any payload, and an
unknown type is rejected with any payload. -/
theorem C5_closed_world_witness :
    validate_action { action := "none", query := some "anything" }
      = some (true, "Action is valid.")
    ∧ (validate_action { action := "run_code", details := some "rm -rf" }).map Prod.fst
      = some false :=
  ⟨(C5_closed_world { action := "none", query := some "anything" }).1 rfl,
   (C5_closed_world { action := "run_code", details := some "rm -rf" }).2 (by decide)⟩

/-- Claim C6, counterexample: `determine_action` takes the `web_search`
payload from the lower-cased summary, not from the summary itself, so
for the summary "search the web for Paris" the produced payload is
"paris" while the claim prescribes the trimmed substring of the summary
after the marker, which is "Paris". -/
theorem C6_payload_lowercased_counterexample :
    (determine_action "search the web for Paris").query = some "paris"
    ∧ claimedWebSearchPayload "search the web for Paris" = "Paris"
    ∧ (determine_action "search the web for Paris").query
        ≠ some (claimedWebSearchPayload "search the web for Paris") := by
  decide

/-- Claim C6, amended: `determine_action` dispatches by first match in
the priority order `web_search`, `save_data`, `schedule_meeting`,
`none` over the lower-cased summary; for every summary containing the
marker "search the web for" case-insensitively, it returns type
`web_search` with payload equal to the substring of the lower-cased
summary after the marker, trimmed. -/
theorem C6_priority_order_amended :
    ∀ s : String,
      (pyIn "search the web for" (pyLower s) = true →
        determine_action s
          = { action := "web_search",
              query := some (pyStrip
                ((pyAfterFirst (pyLower s) "search the web for").getD "")) })
      ∧ (pyIn "search the web for" (pyLower s) = false →
          pyIn "save this information" (pyLower s) = true →
          determine_action s = { action := "save_data", data := some s })
      ∧ (pyIn "search the web for" (pyLower s) = false →
          pyIn "save this information" (pyLower s) = false →
          pyIn "schedule" (pyLower s) = true → pyIn "meeting" (pyLower s) = true →
          determine_action s = { action := "schedule_meeting", details := some s })
      ∧ (pyIn "search the web for" (pyLower s) = false →
          pyIn "save this information" (pyLower s) = false →
          (pyIn "schedule" (pyLower s) && pyIn "meeting" (pyLower s)) = false →
          determine_action s = { action := "none" }) := by
  intro s
  refine ⟨fun h1 => ?_, fun h1 h2 => ?_, fun h1 h2 h3 h4 => ?_, fun h1 h2 h3 => ?_⟩
  · simp [determine_action, h1]
  · simp [determine_action, h1, h2]
  · simp [determine_action, h1, h2, h3, h4]
  · simp [determine_action, h1, h2, h3]

/-- Witness for C6 at a concrete summary containing the marker. -/
theorem C6_priority_order_amended_witness :
    pyIn "search the web for" (pyLower "search the web for Paris") = true
    ∧ determine_action "search the web for Paris"
      = { action := "web_search",
          query := some (pyStrip ((pyAfterFirst
            (pyLower "search the web for Paris") "search the web for").getD "")) } :=
  ⟨by decide, (C6_priority_order_amended "search the web for Paris").1 (by decide)⟩

/-- Claim C9: the destructive-query check is plain substring containment
on the lower-cased payload, so any `web_search` payload containing
"information" — which contains "format" — is invalid; in particular a
turn whose analysis summarises to "Search the web for information about
Lean" blocks the action and executes nothing. -/
theorem C9_information_always_blocked :
    (∀ q : String, pyIn "information" (pyLower q) = true →
      (validate_action { action := "web_search", query := some q }).map Prod.fst
        = some false)
    ∧ (validate_action (determine_action
        "Text analysis: Search the web for information about Lean")).map Prod.fst
        = some false
    ∧ (chat { guardrail := .ok "g",
              analysis := .ok "Search the web for information about Lean",
              response := .ok "done" } 10 [] (.text "tell me")).events
        = [ChatEvent.analysisCall, ChatEvent.responseCall] := by
  refine ⟨fun q hq => ?_, by decide, by decide⟩
  have hinf : ("information".toList : List Char) <:+: (pyLower q).toList :=
    (pyIn_iff _ _).mp hq
  have hfmt : pyIn "format" (pyLower q) = true :=
    (pyIn_iff _ _).mpr (List.IsInfix.trans
      (by decide : ("format".toList : List Char) <:+: "information".toList) hinf)
  have hne : q.toList ≠ [] := by
    intro h0
    have hlen := hinf.length_le
    rw [pyLower_toList, h0] at hlen
    simp at hlen
  have hemp : q.toList.isEmpty = false := by
    cases hq0 : q.toList with
    | nil => exact absurd hq0 hne
    | cons a l => rfl
  have htr : pyTruthy (some q) = true := by
    show (!q.toList.isEmpty) = true
    rw [hemp]
    rfl
  have hdet : getDetails { action := "web_search", query := some q } = some q := by
    simp [getDetails, pyOr, htr]
  cases hany : webSearchBlocklist.any (fun k => pyIn k (pyLower q)) <;>
    simp [validate_action, hdet, htr, hany, hfmt]

/-- Witness for C9 at a concrete payload containing "information". -/
theorem C9_information_always_blocked_witness :
    pyIn "information" (pyLower "information about Lean") = true
    ∧ (validate_action { action := "web_search",
                         query := some "information about Lean" }).map Prod.fst
      = some false :=
  ⟨by decide, C9_information_always_blocked.1 "information about Lean" (by decide)⟩

/-- Claim C10: `_load_history` never trims — a well-formed persisted
list is adopted wholesale at startup, so `get_full_history` can exceed
`max_history_turns` until the next append. -/
theorem C10_load_never_trims :
    ∀ (entries : List HistoryEntry) (maxT : Nat),
      get_full_history (initContextManager (.wellFormed entries) maxT) = entries
      ∧ (maxT < entries.length →
          maxT < (get_full_history (initContextManager (.wellFormed entries) maxT)).length) :=
  fun _ _ => ⟨rfl, fun h => h⟩

/-- Witness for C10: a two-entry persisted file with
`max_history_turns = 1` initialises to length 2. -/
theorem C10_load_never_trims_witness :
    get_full_history (initContextManager
        (.wellFormed [{ role := "user", content := "a" },
                      { role := "model", content := "b" }]) 1)
      = [{ role := "user", content := "a" }, { role := "model", content := "b" }]
    ∧ 1 < (get_full_history (initContextManager
        (.wellFormed [{ role := "user", content := "a" },
                      { role := "model", content := "b" }]) 1)).length :=
  ⟨(C10_load_never_trims _ 1).1,
   (C10_load_never_trims _ 1).2 (by decide)⟩

/-! ### History-store lemmas and claims C8, C10 -/

/-- Length of a nonzero Python tail slice. -/
theorem pySliceLastN_length {α : Type} (l : List α) (n : Nat) (hn : n ≠ 0) :
    (pySliceLastN l n).length = min l.length n := by
  unfold pySliceLastN
  rw [if_neg hn, List.length_drop]
  omega

/-- A Python tail slice is a suffix of the list. -/
theorem pySliceLastN_suffix {α : Type} (l : List α) (n : Nat) :
    pySliceLastN l n <:+ l := by
  unfold pySliceLastN
  split
  · exact List.suffix_refl l
  · exact List.drop_suffix _ _

/-- Length after one `add_message` with a positive bound and an
in-bound starting history. -/
theorem add_message_length (N : Nat) (h : List HistoryEntry) (r c : String)
    (hN : 1 ≤ N) :
    (add_message N h r c).length = min (h.length + 1) N := by
  unfold add_message
  by_cases hgt : (h ++ [({ role := r, content := c } : HistoryEntry)]).length > N
  · rw [if_pos hgt, pySliceLastN_length _ _ (by omega)]
    simp only [List.length_append, List.length_cons, List.length_nil]
  · rw [if_neg hgt]
    simp only [List.length_append, List.length_cons, List.length_nil] at hgt ⊢
    omega

/-- `add_message` without trimming, when the bound leaves room. -/
theorem add_message_of_room (N : Nat) (h : List HistoryEntry) (r c : String)
    (hle : h.length + 1 ≤ N) :
    add_message N h r c = h ++ [{ role := r, content := c }] := by
  unfold add_message
  rw [if_neg]
  simp only [List.length_append, List.length_cons, List.length_nil]
  omega

/-- The result of `add_message` is a suffix of the untrimmed append. -/
theorem add_message_suffix (N : Nat) (h : List HistoryEntry) (r c : String) :
    add_message N h r c <:+ h ++ [{ role := r, content := c }] := by
  unfold add_message
  split
  · exact pySliceLastN_suffix _ _
  · exact List.suffix_refl _

/-- Unfolding one step of `appendAll`. -/
theorem appendAll_cons (N : Nat) (h0 : List HistoryEntry)
    (m : String × String) (ms : List (String × String)) :
    appendAll N h0 (m :: ms) = appendAll N (add_message N h0 m.1 m.2) ms := rfl

/-- Appending a common tail preserves the suffix relation. -/
theorem suffix_append_same {α : Type} {l l' : List α} (t : List α)
    (h : l <:+ l') : l ++ t <:+ l' ++ t := by
  obtain ⟨u, rfl⟩ := h
  exact ⟨u, (List.append_assoc u l t).symm⟩

/-- Exact length of the history after any sequence of appends, for a
positive bound. -/
theorem appendAll_length (N : Nat) (hN : 1 ≤ N) :
    ∀ (msgs : List (String × String)) (h0 : List HistoryEntry), h0.length ≤ N →
      (appendAll N h0 msgs).length = min (h0.length + msgs.length) N := by
  intro msgs
  induction msgs with
  | nil =>
      intro h0 hle
      simp only [appendAll, List.foldl_nil, List.length_nil]
      omega
  | cons m ms ih =>
      intro h0 hle
      have h1 := add_message_length N h0 m.1 m.2 hN
      have h2 := ih (add_message N h0 m.1 m.2) (by rw [h1]; omega)
      rw [appendAll_cons, h2, h1]
      simp only [List.length_cons]
      omega

/-- The history after any sequence of appends is a suffix of the full
appended sequence. -/
theorem appendAll_suffix (N : Nat) :
    ∀ (msgs : List (String × String)) (h0 : List HistoryEntry),
      appendAll N h0 msgs
        <:+ h0 ++ msgs.map (fun m => { role := m.1, content := m.2 }) := by
  intro msgs
  induction msgs with
  | nil => intro h0; simp [appendAll]
  | cons m ms ih =>
      intro h0
      rw [appendAll_cons]
      refine (ih (add_message N h0 m.1 m.2)).trans ?_
      have h2 := suffix_append_same
        (ms.map fun m => { role := m.1, content := m.2 })
        (add_message_suffix N h0 m.1 m.2)
      simpa [List.append_assoc] using h2

/-- Claim C8, counterexample: with `max_history_turns = 0` the trim
slice `history[-0:]` is the whole list, so a single append leaves the
history at length `1 > 0` and the invariant fails. -/
theorem C8_zero_bound_counterexample :
    (appendAll 0 [] [("user", "hi")]).length = 1
    ∧ ¬((appendAll 0 [] [("user", "hi")]).length ≤ 0) := by
  decide

/-- Claim C8, amended: for every positive `max_history_turns` and every
sequence of appends starting from the empty store, the stored length is
at most the bound (exactly `min` of the bound and the number of
appends), and the retained entries are a suffix of the appended
sequence: the most recently appended ones in original relative
order. -/
theorem C8_bounded_history_amended :
    ∀ (N : Nat) (msgs : List (String × String)), 1 ≤ N →
      (appendAll N [] msgs).length ≤ N
      ∧ (appendAll N [] msgs).length = min msgs.length N
      ∧ appendAll N [] msgs
          <:+ msgs.map (fun m => { role := m.1, content := m.2 }) := by
  intro N msgs hN
  have hlen := appendAll_length N hN msgs [] (by simp)
  simp only [List.length_nil, Nat.zero_add] at hlen
  refine ⟨by omega, hlen, ?_⟩
  simpa using appendAll_suffix N msgs []

/-- Witness for C8 at a concrete bound and append sequence. -/
theorem C8_bounded_history_amended_witness :
    (appendAll 2 [] [("user", "a"), ("model", "b"), ("user", "c")]).length ≤ 2
    ∧ (appendAll 2 [] [("user", "a"), ("model", "b"), ("user", "c")]).length
        = min [("user", "a"), ("model", "b"), ("user", "c")].length 2
    ∧ appendAll 2 [] [("user", "a"), ("model", "b"), ("user", "c")]
        <:+ [("user", "a"), ("model", "b"), ("user", "c")].map
              (fun m => { role := m.1, content := m.2 }) :=
  C8_bounded_history_amended 2 [("user", "a"), ("model", "b"), ("user", "c")]
    (by decide)

/-! ### Orchestrator lemmas and claims C1, C7 -/

/-- The response-generation tail adds only a `responseCall` event. -/
theorem execute_mem_chatRespond (env : ServiceEnv) (maxT : Nat)
    (hist : List HistoryEntry) (g m : String) (evts : List ChatEvent)
    (a : ActionRequest) :
    ChatEvent.execute a ∈ (chatRespond env maxT hist g m evts).events
      ↔ ChatEvent.execute a ∈ evts := by
  unfold chatRespond
  cases hr : env.response <;> simp

/-- An `execute` event coming out of the action-arbitration tail was
either already present, or records the derived action of the turn's
summary, with a valid verdict and a type other than `none`. -/
theorem execute_mem_chatAfterAnalysis (env : ServiceEnv) (maxT : Nat)
    (hist : List HistoryEntry) (s g : String) (evts : List ChatEvent)
    (a : ActionRequest)
    (hmem : ChatEvent.execute a ∈ (chatAfterAnalysis env maxT hist s g evts).events) :
    ChatEvent.execute a ∈ evts
    ∨ (a = determine_action s
        ∧ (validate_action a).map Prod.fst = some true
        ∧ a.action ≠ "none") := by
  unfold chatAfterAnalysis at hmem
  split at hmem
  · left
    simpa using hmem
  · rename_i v m heq
    split at hmem
    · left
      exact (execute_mem_chatRespond env maxT hist g _ evts a).mp hmem
    · rename_i hv
      split at hmem
      · rename_i hnone
        have hm2 := (execute_mem_chatRespond env maxT hist g _ _ a).mp hmem
        rcases List.mem_append.mp hm2 with h | h
        · left
          exact h
        · right
          have ha : a = determine_action s := by simpa using h
          subst ha
          refine ⟨rfl, ?_, hnone⟩
          rw [heq]
          simpa using hv
      · left
        exact (execute_mem_chatRespond env maxT hist g _ evts a).mp hmem

/-- Claim C1: in every turn, an action is executed only when it is the
action derived in that same turn, `validate_action` returned a valid
verdict for that exact request in that turn, and its type is not
`none`; a request that validation rejected, or on which validation
raised, is never executed. -/
theorem C1_execute_only_validated :
    ∀ (env : ServiceEnv) (maxT : Nat) (hist0 : List HistoryEntry)
      (input : UserInput) (a : ActionRequest),
      ChatEvent.execute a ∈ (chat env maxT hist0 input).events →
        (validate_action a).map Prod.fst = some true
        ∧ a.action ≠ "none"
        ∧ ∃ s, a = determine_action s := by
  intro env maxT hist0 input a hmem
  cases input with
  | image filename caption =>
      simp only [chat] at hmem
      split at hmem
      · simp at hmem
      · split at hmem
        · rcases execute_mem_chatAfterAnalysis env maxT _ _ _ _ a hmem with h | h
          · simp at h
          · exact ⟨h.2.1, h.2.2, _, h.1⟩
        · simp at hmem
  | text raw =>
      simp only [chat] at hmem
      split at hmem
      · simp at hmem
      · split at hmem
        · simp at hmem
        · split at hmem
          · rcases execute_mem_chatAfterAnalysis env maxT _ _ _ _ a hmem with h | h
            · simp at h
            · exact ⟨h.2.1, h.2.2, _, h.1⟩
          · simp at hmem

/-- Witness for C1: a turn whose analysis requests a benign web search
produces an `execute` event, and the theorem yields its validation
facts. -/
theorem C1_execute_only_validated_witness :
    ChatEvent.execute { action := "web_search", query := some "cats" }
      ∈ (chat { guardrail := .ok "g", analysis := .ok "Please search the web for cats",
                response := .ok "done" } 10 [] (.text "hi")).events
    ∧ ((validate_action { action := "web_search", query := some "cats" }).map Prod.fst
        = some true
      ∧ ({ action := "web_search", query := some "cats" } : ActionRequest).action ≠ "none"
      ∧ ∃ s, ({ action := "web_search", query := some "cats" } : ActionRequest)
          = determine_action s) :=
  ⟨by decide,
   C1_execute_only_validated
     { guardrail := .ok "g", analysis := .ok "Please search the web for cats",
       response := .ok "done" } 10 []
     (.text "hi") { action := "web_search", query := some "cats" } (by decide)⟩

/-- Claim C7: a turn whose guardrail verdict is unsafe appends exactly
the user turn (or an image placeholder label) and a model turn carrying
the guardrail message to History, returns the guardrail message in the
response immediately, and records no completion-service call for
content analysis, action handling, or response generation; and when the
bound leaves room, the two `add_message` calls are plain appends of
exactly two entries. -/
theorem C7_blocked_turn_short_circuits :
    ∀ (env : ServiceEnv) (maxT : Nat) (hist0 : List HistoryEntry),
      (∀ raw, (pyStrip raw).toList.isEmpty = false →
        (scan_text_input env.guardrail (pyStrip raw)).safe = false →
        chat env maxT hist0 (.text raw)
          = { response := some ("System: "
                ++ (scan_text_input env.guardrail (pyStrip raw)).message)
              history := add_message maxT
                (add_message maxT hist0 "user" (pyStrip raw)) "model"
                ("[Guardrail]: "
                  ++ (scan_text_input env.guardrail (pyStrip raw)).message)
              events := [] })
      ∧ (∀ filename caption, (scan_image_input env.guardrail).safe = false →
          chat env maxT hist0 (.image filename caption)
            = { response := some ("System: "
                  ++ (scan_image_input env.guardrail).message)
                history := add_message maxT
                  (add_message maxT hist0 "user"
                    (if caption.toList.isEmpty then "[Image: " ++ filename ++ "]"
                     else caption)) "model"
                  ("[Guardrail]: " ++ (scan_image_input env.guardrail).message)
                events := [] })
      ∧ (hist0.length + 2 ≤ maxT → ∀ r1 c1 r2 c2 : String,
          add_message maxT (add_message maxT hist0 r1 c1) r2 c2
            = hist0 ++ [{ role := r1, content := c1 },
                        { role := r2, content := c2 }]) := by
  intro env maxT hist0
  refine ⟨fun raw h1 h2 => ?_, fun filename caption h2 => ?_, fun hle r1 c1 r2 c2 => ?_⟩
  · simp only [chat, h1]
    simp [h2]
  · simp [chat, h2]
  · rw [add_message_of_room maxT hist0 r1 c1 (by omega)]
    rw [add_message_of_room maxT _ r2 c2
      (by simp only [List.length_append, List.length_cons, List.length_nil]; omega)]
    simp

/-- Witness for C7 at the scenario input "format hard drive" from the
specification. -/
theorem C7_blocked_turn_short_circuits_witness :
    (pyStrip "format hard drive").toList.isEmpty = false
    ∧ (scan_text_input (ServiceOutcome.ok "x") (pyStrip "format hard drive")).safe
        = false
    ∧ chat { guardrail := .ok "x", analysis := .ok "y", response := .ok "z" } 7 []
        (.text "format hard drive")
      = { response := some ("System: "
            ++ (scan_text_input (ServiceOutcome.ok "x")
                  (pyStrip "format hard drive")).message)
          history := add_message 7
            (add_message 7 [] "user" (pyStrip "format hard drive")) "model"
            ("[Guardrail]: "
              ++ (scan_text_input (ServiceOutcome.ok "x")
                    (pyStrip "format hard drive")).message)
          events := [] } :=
  ⟨by decide, by decide,
   (C7_blocked_turn_short_circuits
     { guardrail := .ok "x", analysis := .ok "y", response := .ok "z" } 7 []).1
     "format hard drive" (by decide) (by decide)⟩

